import Mathlib

/-!
Verification of the build post-processing step in
`apps/leaxer_desktop/src-tauri/build.rs`.

The Rust program runs `tauri_build::build()` and then, only when compiled
for Windows, reads the `OUT_DIR`, `PROFILE` and `CARGO_MANIFEST_DIR`
environment variables (panicking if any is absent), walks the ancestor
chain of `OUT_DIR` looking for the first component whose file name starts
with `webview2-com-sys`, appends `out/x64/WebView2Loader.dll`, and if that
file exists copies it into `<manifest dir>/target/<profile>/`, printing a
cargo warning on both a successful and a failed copy.

Paths are modelled as lists of components (root = empty list); a component
is either a valid UTF-8 name or a raw byte sequence (modelling an `OsStr`
that is not valid UTF-8).  The filesystem is a partial map from paths to
file contents, and the run of the build script is a pure function
returning the final filesystem (`none` models a panic aborting the build)
together with a trace of the observable events, in order.
-/

/-- A path component: either a valid UTF-8 name or raw (non-UTF-8) bytes,
modelling `std::ffi::OsStr`. -/
inductive Comp where
  | utf8 : String → Comp
  | raw : List Nat → Comp
deriving DecidableEq, Repr

/-- A filesystem path, as its list of components from the root;
the root itself is `[]`. -/
abbrev FsPath := List Comp

/-- Models `OsStr::to_str`: `some` exactly on valid UTF-8 names. -/
def Comp.to_str : Comp → Option String
  | .utf8 s => some s
  | .raw _ => none

/-- Models `Path::file_name`: the final component, `none` at the root. -/
def file_name (p : FsPath) : Option Comp := p.getLast?

/-- Models `str::starts_with`: the pattern is a prefix of the string. -/
def strStartsWith (s pat : String) : Bool := pat.data.isPrefixOf s.data

/-- Models `Path::ancestors`: the path itself, then each parent in turn,
ending with the root.  `p.take k` for `k = p.length, …, 0` lists exactly
the path and its successive parents, nearest first. -/
def ancestors (p : FsPath) : List FsPath :=
  ((List.range (p.length + 1)).map (fun k => p.take k)).reverse

/-- The predicate of the `find` closure in `build.rs` line 21:
`p.file_name().map(|n| n.to_str().unwrap_or("").starts_with("webview2-com-sys")).unwrap_or(false)`. -/
def isWebview2Dir (p : FsPath) : Bool :=
  ((file_name p).map
    (fun n => strStartsWith ((Comp.to_str n).getD "") "webview2-com-sys")).getD false

/-- `src_dll` from `build.rs` lines 19–22: the first ancestor of `OUT_DIR`
whose name starts with `webview2-com-sys`, with `out/x64/WebView2Loader.dll`
appended. -/
def srcDll (out_dir : FsPath) : Option FsPath :=
  ((ancestors out_dir).find? isWebview2Dir).map
    (fun p => p ++ [Comp.utf8 "out", Comp.utf8 "x64", Comp.utf8 "WebView2Loader.dll"])

/-- The filesystem: file contents (byte lists) indexed by path. -/
abbrev FS := FsPath → Option (List Nat)

/-- Overwriting write of one file, modelling a successful `std::fs::copy`
at its destination. -/
def FS.write (fs : FS) (p : FsPath) (bytes : List Nat) : FS :=
  fun q => if q = p then some bytes else fs q

/-- The three environment values the script reads; `none` models an
absent variable (whose `unwrap` panics). -/
structure Env where
  out_dir : Option FsPath
  profile : Option String
  manifest_dir : Option FsPath

/-- The compilation target: the `#[cfg(windows)]` block exists only on
Windows. -/
inductive Platform where
  | windows
  | other
deriving DecidableEq

/-- Observable events of one run of the build script, in order. -/
inductive Event where
  | buildStep
  | envRead : String → Event
  | fsSearch : FsPath → Event
  | fsCopy : FsPath → FsPath → Event
  | warn : String → Event
deriving DecidableEq, Repr

/-- `true` exactly on the build-step event. -/
def isBuildEv : Event → Bool
  | .buildStep => true
  | _ => false

/-- `true` exactly on filesystem events (existence check or copy). -/
def isFsEvent : Event → Bool
  | .fsSearch _ => true
  | .fsCopy _ _ => true
  | _ => false

/-- `true` exactly on cargo-warning events. -/
def isWarn : Event → Bool
  | .warn _ => true
  | _ => false

/-- `true` exactly on the existence-check event for the candidate. -/
def isSearch : Event → Bool
  | .fsSearch _ => true
  | _ => false

/-- One run of `main` from `build.rs`.  `copyOk` is the outcome the host
filesystem gives to `std::fs::copy` (it can fail for reasons outside the
program, e.g. permissions).  The first result is the final filesystem,
`none` when an `unwrap` on a missing environment variable panics; the
second is the event trace. -/
def runMain (plat : Platform) (env : Env) (fs : FS) (copyOk : Bool) :
    Option FS × List Event :=
  match plat with
  | .other => (some fs, [Event.buildStep])
  | .windows =>
    match env.out_dir with
    | none => (none, [Event.buildStep, Event.envRead "OUT_DIR"])
    | some out_dir =>
      match env.profile with
      | none => (none, [Event.buildStep, Event.envRead "OUT_DIR",
                        Event.envRead "PROFILE"])
      | some profile =>
        match env.manifest_dir with
        | none => (none, [Event.buildStep, Event.envRead "OUT_DIR",
                          Event.envRead "PROFILE",
                          Event.envRead "CARGO_MANIFEST_DIR"])
        | some manifest_dir =>
          let pre := [Event.buildStep, Event.envRead "OUT_DIR",
                      Event.envRead "PROFILE",
                      Event.envRead "CARGO_MANIFEST_DIR"]
          let target_dir := manifest_dir ++ [Comp.utf8 "target", Comp.utf8 profile]
          match srcDll out_dir with
          | none => (some fs, pre)
          | some src =>
            match fs src with
            | none => (some fs, pre ++ [Event.fsSearch src])
            | some bytes =>
              let dest := target_dir ++ [Comp.utf8 "WebView2Loader.dll"]
              if copyOk then
                (some (FS.write fs dest bytes),
                 pre ++ [Event.fsSearch src, Event.fsCopy src dest,
                         Event.warn "Copied WebView2Loader.dll"])
              else
                (some fs,
                 pre ++ [Event.fsSearch src, Event.fsCopy src dest,
                         Event.warn "Failed to copy WebView2Loader.dll"])

/-- The concrete scenario of the specification: output directory
`/proj/target/debug/build/webview2-com-sys-abc123/out`. -/
def scenOut : FsPath :=
  [Comp.utf8 "proj", Comp.utf8 "target", Comp.utf8 "debug", Comp.utf8 "build",
   Comp.utf8 "webview2-com-sys-abc123", Comp.utf8 "out"]

/-- The matching ancestor `/proj/target/debug/build/webview2-com-sys-abc123`. -/
def scenDir : FsPath :=
  [Comp.utf8 "proj", Comp.utf8 "target", Comp.utf8 "debug", Comp.utf8 "build",
   Comp.utf8 "webview2-com-sys-abc123"]

/-- The candidate source
`/proj/target/debug/build/webview2-com-sys-abc123/out/x64/WebView2Loader.dll`. -/
def scenSrc : FsPath :=
  scenDir ++ [Comp.utf8 "out", Comp.utf8 "x64", Comp.utf8 "WebView2Loader.dll"]

/-- The destination `/proj/target/debug/WebView2Loader.dll`. -/
def scenDest : FsPath :=
  [Comp.utf8 "proj", Comp.utf8 "target", Comp.utf8 "debug",
   Comp.utf8 "WebView2Loader.dll"]

/-- The scenario environment: profile `debug`, project root `/proj`. -/
def scenEnv : Env :=
  ⟨some scenOut, some "debug", some [Comp.utf8 "proj"]⟩

/-- The empty filesystem. -/
def emptyFS : FS := fun _ => none

/-- The ancestors of the scenario output directory beyond the matching one. -/
def scenRest : List FsPath :=
  [[Comp.utf8 "proj", Comp.utf8 "target", Comp.utf8 "debug", Comp.utf8 "build"],
   [Comp.utf8 "proj", Comp.utf8 "target", Comp.utf8 "debug"],
   [Comp.utf8 "proj", Comp.utf8 "target"],
   [Comp.utf8 "proj"], []]

/-- A filesystem holding just the scenario's source file. -/
def fsScen : FS := fun q => if q = scenSrc then some [7, 7, 7] else none

/-- A stale sibling build directory's loader file: the directory name
`webview2-com-sys-zzz` shares the searched prefix with the scenario's. -/
def staleSrc : FsPath :=
  [Comp.utf8 "proj", Comp.utf8 "target", Comp.utf8 "debug", Comp.utf8 "build",
   Comp.utf8 "webview2-com-sys-zzz", Comp.utf8 "out", Comp.utf8 "x64",
   Comp.utf8 "WebView2Loader.dll"]

/-- Like `fsScen`, but a stale prefix-sharing sibling's loader also exists. -/
def fsStale : FS :=
  fun q => if q = scenSrc then some [7, 7, 7]
           else if q = staleSrc then some [9, 9] else none

/-- An environment whose output directory has no ancestor matching the
searched name. -/
def envNoMatch : Env :=
  ⟨some [Comp.utf8 "proj", Comp.utf8 "out"], some "debug",
   some [Comp.utf8 "proj"]⟩

/-- An environment with every required value absent. -/
def envAbsent : Env := ⟨none, none, none⟩

/-- The specification's description of a matching ancestor: its final
component is a (valid UTF-8) name starting with `webview2-com-sys`. -/
def specNameMatch (p : FsPath) : Prop :=
  ∃ s : String, file_name p = some (Comp.utf8 s) ∧
    strStartsWith s "webview2-com-sys" = true

/-- The closure tested by the code agrees with the specification's
description of a matching ancestor. -/
theorem isWebview2Dir_iff (p : FsPath) : isWebview2Dir p = true ↔ specNameMatch p := by
  unfold isWebview2Dir specNameMatch
  cases h : file_name p with
  | none => simp
  | some c =>
    cases c with
    | utf8 s =>
      simp [Comp.to_str]
    | raw bs =>
      simp [Comp.to_str]
      decide

/-- `find?` returns the first element satisfying the predicate. -/
theorem find?_first {α : Type} (pred : α → Bool) (l₁ l₂ : List α) (a : α)
    (h1 : ∀ q ∈ l₁, pred q = false) (h2 : pred a = true) :
    (l₁ ++ a :: l₂).find? pred = some a := by
  induction l₁ with
  | nil => simp [List.find?_cons, h2]
  | cons b l ih =>
    have hb : pred b = false := h1 b (by simp)
    simp only [List.cons_append, List.find?_cons, hb]
    exact ih (fun q hq => h1 q (by simp [hq]))

/-- Claim C1: on Windows, when the candidate source file exists and the
copy operation succeeds, after the run the destination
`<project root>/target/<profile>/WebView2Loader.dll` holds a byte-identical
copy of the source file's contents. -/
theorem c1_copy_byte_identical (env : Env) (fs : FS) (o m src : FsPath)
    (p : String) (bytes : List Nat)
    (ho : env.out_dir = some o) (hp : env.profile = some p)
    (hm : env.manifest_dir = some m)
    (hs : srcDll o = some src) (hf : fs src = some bytes) :
    ∃ fs', (runMain Platform.windows env fs true).1 = some fs' ∧
      fs' (m ++ [Comp.utf8 "target", Comp.utf8 p, Comp.utf8 "WebView2Loader.dll"])
        = some bytes := by
  obtain ⟨eo, ep, em⟩ := env
  cases ho; cases hp; cases hm
  simp only [runMain, hs, hf, if_true]
  exact ⟨_, rfl, by simp [FS.write]⟩

/-- Witness for C1: the specification's concrete scenario with a
three-byte source file. -/
theorem c1_copy_byte_identical_witness :
    srcDll scenOut = some scenSrc ∧ fsScen scenSrc = some [7, 7, 7] ∧
    ∃ fs', (runMain Platform.windows scenEnv fsScen true).1 = some fs' ∧
      fs' ([Comp.utf8 "proj"] ++ [Comp.utf8 "target", Comp.utf8 "debug",
        Comp.utf8 "WebView2Loader.dll"]) = some [7, 7, 7] :=
  ⟨by decide, by decide,
   c1_copy_byte_identical scenEnv fsScen scenOut [Comp.utf8 "proj"] scenSrc
     "debug" [7, 7, 7] rfl rfl rfl (by decide) (by decide)⟩

/-- Claim C2: the candidate source path is the first ancestor of the
output directory (nearest first) whose final component's name starts with
`webview2-com-sys`, with `out/x64/WebView2Loader.dll` appended. -/
theorem c2_candidate_selection (out : FsPath) (l₁ l₂ : List FsPath) (q : FsPath)
    (h : ancestors out = l₁ ++ q :: l₂)
    (h1 : ∀ r ∈ l₁, ¬ specNameMatch r)
    (h2 : specNameMatch q) :
    srcDll out = some (q ++ [Comp.utf8 "out", Comp.utf8 "x64",
      Comp.utf8 "WebView2Loader.dll"]) := by
  unfold srcDll
  rw [h, find?_first isWebview2Dir l₁ l₂ q
    (fun r hr => by
      cases hb : isWebview2Dir r with
      | false => rfl
      | true => exact absurd ((isWebview2Dir_iff r).1 hb) (h1 r hr))
    ((isWebview2Dir_iff q).2 h2)]
  rfl

/-- Witness for C2: the specification's concrete scenario; the nearest
ancestor `…/out` does not match, `…/webview2-com-sys-abc123` does, and the
candidate is `…/webview2-com-sys-abc123/out/x64/WebView2Loader.dll`. -/
theorem c2_candidate_selection_witness :
    ancestors scenOut = [scenOut] ++ scenDir :: scenRest ∧
    specNameMatch scenDir ∧ srcDll scenOut = some scenSrc := by
  have hno : ¬ specNameMatch scenOut := fun hspec =>
    absurd ((isWebview2Dir_iff scenOut).2 hspec) (by decide)
  refine ⟨by decide, ⟨"webview2-com-sys-abc123", by decide, by decide⟩, ?_⟩
  exact c2_candidate_selection scenOut [scenOut] scenRest scenDir (by decide)
    (by intro r hr
        simp only [List.mem_singleton] at hr
        subst hr
        exact hno)
    ⟨"webview2-com-sys-abc123", by decide, by decide⟩

/-- Claim C3: on Windows, if any of the three required environment values
is absent, the run aborts (result `none`) and its trace holds no
filesystem search or copy event. -/
theorem c3_missing_env_aborts (env : Env) (fs : FS) (copyOk : Bool)
    (h : env.out_dir = none ∨ env.profile = none ∨ env.manifest_dir = none) :
    (runMain Platform.windows env fs copyOk).1 = none ∧
    (runMain Platform.windows env fs copyOk).2.all
      (fun e => !isFsEvent e) = true := by
  obtain ⟨eo, ep, em⟩ := env
  cases eo <;> cases ep <;> cases em <;>
    simp_all [runMain, isFsEvent]

/-- Witness for C3: all three values absent; the run aborts with only the
build step and the first environment read in its trace. -/
theorem c3_missing_env_aborts_witness :
    (envAbsent.out_dir = none ∨ envAbsent.profile = none ∨
      envAbsent.manifest_dir = none) ∧
    (runMain Platform.windows envAbsent emptyFS true).1 = none ∧
    (runMain Platform.windows envAbsent emptyFS true).2.all
      (fun e => !isFsEvent e) = true :=
  ⟨Or.inl rfl, c3_missing_env_aborts envAbsent emptyFS true (Or.inl rfl)⟩

/-- Counterexample to C4 as stated: with output directory `/proj/out` no
ancestor matches the searched name, so the source is not found — a
non-fatal failure — yet the run completes with no warning in its trace. -/
theorem c4_not_found_silent_cex :
    srcDll [Comp.utf8 "proj", Comp.utf8 "out"] = none ∧
    (runMain Platform.windows envNoMatch emptyFS true).1 = some emptyFS ∧
    (runMain Platform.windows envNoMatch emptyFS true).2.all
      (fun e => !isWarn e) = true :=
  ⟨by decide, rfl, by decide⟩

/-- Claim C4 (amended): on Windows with all environment values present the
build proceeds on every non-fatal failure, but only a failed copy is
logged as a warning; a missing source directory or file is skipped
silently, with no warning logged. -/
theorem c4_nonfatal_amended (env : Env) (fs : FS) (o m : FsPath) (p : String)
    (ho : env.out_dir = some o) (hp : env.profile = some p)
    (hm : env.manifest_dir = some m) :
    (∀ src bytes, srcDll o = some src → fs src = some bytes →
        (runMain Platform.windows env fs false).1 = some fs ∧
        (runMain Platform.windows env fs false).2.any isWarn = true) ∧
    (srcDll o = none →
        (runMain Platform.windows env fs true).1 = some fs ∧
        (runMain Platform.windows env fs true).2.all
          (fun e => !isWarn e) = true) ∧
    (∀ src, srcDll o = some src → fs src = none →
        (runMain Platform.windows env fs true).1 = some fs ∧
        (runMain Platform.windows env fs true).2.all
          (fun e => !isWarn e) = true) := by
  obtain ⟨eo, ep, em⟩ := env
  cases ho; cases hp; cases hm
  refine ⟨?_, ?_, ?_⟩
  · intro src bytes hs hf
    simp [runMain, hs, hf, isWarn]
  · intro hs
    simp [runMain, hs, isWarn]
  · intro src hs hf
    simp [runMain, hs, hf, isWarn]

/-- Witness for the amended C4: in the concrete scenario with the source
present and a failing copy, the build proceeds and a warning is logged. -/
theorem c4_nonfatal_amended_witness :
    srcDll scenOut = some scenSrc ∧ fsScen scenSrc = some [7, 7, 7] ∧
    (runMain Platform.windows scenEnv fsScen false).1 = some fsScen ∧
    (runMain Platform.windows scenEnv fsScen false).2.any isWarn = true :=
  ⟨by decide, by decide,
   (c4_nonfatal_amended scenEnv fsScen scenOut [Comp.utf8 "proj"] "debug"
     rfl rfl rfl).1 scenSrc [7, 7, 7] (by decide) (by decide)⟩

/-- Claim C5: on any platform other than Windows, the run only invokes the
build step: the filesystem is unchanged and the trace holds exactly the
build-step event — no environment read, search, copy or warning. -/
theorem c5_other_platform_noop (env : Env) (fs : FS) (copyOk : Bool) :
    runMain Platform.other env fs copyOk = (some fs, [Event.buildStep]) := rfl

/-- Claim C6: on Windows, when no ancestor matches or the candidate file
is absent, the run completes without aborting and leaves the filesystem —
in particular the destination — unmodified. -/
theorem c6_not_found_no_write (env : Env) (fs : FS) (copyOk : Bool)
    (o m : FsPath) (p : String)
    (ho : env.out_dir = some o) (hp : env.profile = some p)
    (hm : env.manifest_dir = some m)
    (h : srcDll o = none ∨ ∃ src, srcDll o = some src ∧ fs src = none) :
    (runMain Platform.windows env fs copyOk).1 = some fs := by
  obtain ⟨eo, ep, em⟩ := env
  cases ho; cases hp; cases hm
  rcases h with hs | ⟨src, hs, hf⟩
  · simp [runMain, hs]
  · simp [runMain, hs, hf]

/-- Witness for C6: output directory `/proj/out` has no matching ancestor;
the run returns the unchanged empty filesystem. -/
theorem c6_not_found_no_write_witness :
    srcDll [Comp.utf8 "proj", Comp.utf8 "out"] = none ∧
    (runMain Platform.windows envNoMatch emptyFS true).1 = some emptyFS :=
  ⟨by decide,
   c6_not_found_no_write envNoMatch emptyFS true
     [Comp.utf8 "proj", Comp.utf8 "out"] [Comp.utf8 "proj"] "debug"
     rfl rfl rfl (Or.inl (by decide))⟩

/-- Evaluation of a Windows run when the candidate is found, the file
exists and the copy succeeds: the destination is overwritten and the full
trace is emitted. -/
theorem runMain_found (o m : FsPath) (p : String) (fs : FS) (src : FsPath)
    (bytes : List Nat) (hs : srcDll o = some src) (hf : fs src = some bytes) :
    runMain Platform.windows ⟨some o, some p, some m⟩ fs true =
      (some (FS.write fs
        (m ++ [Comp.utf8 "target", Comp.utf8 p, Comp.utf8 "WebView2Loader.dll"])
        bytes),
       [Event.buildStep, Event.envRead "OUT_DIR", Event.envRead "PROFILE",
        Event.envRead "CARGO_MANIFEST_DIR", Event.fsSearch src,
        Event.fsCopy src
          (m ++ [Comp.utf8 "target", Comp.utf8 p, Comp.utf8 "WebView2Loader.dll"]),
        Event.warn "Copied WebView2Loader.dll"]) := by
  simp [runMain, hs, hf]

/-- Claim C7: two successive runs with the same environment, an existing
unchanged source file and successful copies leave the same content at the
destination both times (idempotent overwrite). -/
theorem c7_idempotent_overwrite (env : Env) (fs : FS) (o m src : FsPath)
    (p : String) (bytes : List Nat)
    (ho : env.out_dir = some o) (hp : env.profile = some p)
    (hm : env.manifest_dir = some m)
    (hs : srcDll o = some src) (hf : fs src = some bytes) :
    ∃ fs₁ fs₂,
      (runMain Platform.windows env fs true).1 = some fs₁ ∧
      (runMain Platform.windows env fs₁ true).1 = some fs₂ ∧
      fs₁ (m ++ [Comp.utf8 "target", Comp.utf8 p, Comp.utf8 "WebView2Loader.dll"])
        = some bytes ∧
      fs₂ (m ++ [Comp.utf8 "target", Comp.utf8 p, Comp.utf8 "WebView2Loader.dll"])
        = some bytes := by
  obtain ⟨eo, ep, em⟩ := env
  cases ho; cases hp; cases hm
  have h1 := runMain_found o m p fs src bytes hs hf
  have hf1 : FS.write fs
      (m ++ [Comp.utf8 "target", Comp.utf8 p, Comp.utf8 "WebView2Loader.dll"])
      bytes src = some bytes := by
    unfold FS.write
    split <;> simp [hf]
  have h2 := runMain_found o m p
    (FS.write fs
      (m ++ [Comp.utf8 "target", Comp.utf8 p, Comp.utf8 "WebView2Loader.dll"])
      bytes) src bytes hs hf1
  refine ⟨_, _, by rw [h1], by rw [h2], ?_, ?_⟩ <;> simp [FS.write]

/-- Witness for C7: the concrete scenario run twice; the destination holds
the source bytes after each run. -/
theorem c7_idempotent_overwrite_witness :
    srcDll scenOut = some scenSrc ∧ fsScen scenSrc = some [7, 7, 7] ∧
    ∃ fs₁ fs₂,
      (runMain Platform.windows scenEnv fsScen true).1 = some fs₁ ∧
      (runMain Platform.windows scenEnv fs₁ true).1 = some fs₂ ∧
      fs₁ ([Comp.utf8 "proj"] ++ [Comp.utf8 "target", Comp.utf8 "debug",
        Comp.utf8 "WebView2Loader.dll"]) = some [7, 7, 7] ∧
      fs₂ ([Comp.utf8 "proj"] ++ [Comp.utf8 "target", Comp.utf8 "debug",
        Comp.utf8 "WebView2Loader.dll"]) = some [7, 7, 7] :=
  ⟨by decide, by decide,
   c7_idempotent_overwrite scenEnv fsScen scenOut [Comp.utf8 "proj"] scenSrc
     "debug" [7, 7, 7] rfl rfl rfl (by decide) (by decide)⟩

/-- Claim C8: on every platform and every input, the trace starts with the
build-step event and holds it exactly once: the platform build step runs
first, unconditionally, before any environment read, search or copy. -/
theorem c8_build_step_first_once (plat : Platform) (env : Env) (fs : FS)
    (copyOk : Bool) :
    (runMain plat env fs copyOk).2.head? = some Event.buildStep ∧
    (runMain plat env fs copyOk).2.countP isBuildEv = 1 := by
  cases plat with
  | other => exact ⟨rfl, rfl⟩
  | windows =>
    obtain ⟨eo, ep, em⟩ := env
    cases eo with
    | none => exact ⟨rfl, rfl⟩
    | some o =>
      cases ep with
      | none => exact ⟨rfl, rfl⟩
      | some p =>
        cases em with
        | none => exact ⟨rfl, rfl⟩
        | some m =>
          cases hs : srcDll o with
          | none => simp [runMain, hs, isBuildEv]
          | some src =>
            cases hf : fs src with
            | none => simp [runMain, hs, hf, isBuildEv, List.countP_cons]
            | some bytes =>
              cases copyOk <;>
                simp [runMain, hs, hf, isBuildEv, List.countP_cons]

/-- Counterexample to C9 as stated: two filesystem states that differ
exactly in a stale sibling directory sharing the `webview2-com-sys` name
start produce identical traces — the same candidate is searched and
copied — because the ancestor walk never consults the filesystem. -/
theorem c9_stale_sibling_ignored_cex :
    fsStale staleSrc ≠ fsScen staleSrc ∧
    (runMain Platform.windows scenEnv fsScen true).2 =
      (runMain Platform.windows scenEnv fsStale true).2 ∧
    Event.fsSearch scenSrc ∈ (runMain Platform.windows scenEnv fsScen true).2 :=
  ⟨by decide, by decide, by decide⟩

/-- Claim C9 (amended): the candidate-path selection is a deterministic
function of the environment values alone — the set of paths whose
existence is checked is the same for any two runs regardless of the
filesystem state or the copy outcome. -/
theorem c9_selection_deterministic (env : Env) (fs₁ fs₂ : FS)
    (c₁ c₂ : Bool) :
    (runMain Platform.windows env fs₁ c₁).2.filter isSearch =
      (runMain Platform.windows env fs₂ c₂).2.filter isSearch := by
  obtain ⟨eo, ep, em⟩ := env
  cases eo with
  | none => rfl
  | some o =>
    cases ep with
    | none => rfl
    | some p =>
      cases em with
      | none => rfl
      | some m =>
        cases hs : srcDll o with
        | none => simp [runMain, hs]
        | some src =>
          cases hf₁ : fs₁ src <;> cases hf₂ : fs₂ src <;>
            cases c₁ <;> cases c₂ <;>
              simp [runMain, hs, hf₁, hf₂, isSearch]

/-- Claim C10: once the three environment values are present the Windows
run always completes (never panics), for every filesystem state and copy
outcome; and an ancestor whose final component is not valid UTF-8 is
treated as a non-match by the search predicate rather than failing. -/
theorem c10_total_after_env :
    (∀ (env : Env) (fs : FS) (c : Bool) (o m : FsPath) (p : String),
      env.out_dir = some o → env.profile = some p →
      env.manifest_dir = some m →
      ((runMain Platform.windows env fs c).1).isSome = true) ∧
    (∀ (q : FsPath) (bs : List Nat),
      isWebview2Dir (q ++ [Comp.raw bs]) = false) := by
  constructor
  · intro env fs c o m p ho hp hm
    obtain ⟨eo, ep, em⟩ := env
    cases ho; cases hp; cases hm
    cases hs : srcDll o with
    | none => simp [runMain, hs]
    | some src =>
      cases hf : fs src with
      | none => simp [runMain, hs, hf]
      | some bytes => cases c <;> simp [runMain, hs, hf]
  · intro q bs
    simp [isWebview2Dir, file_name, Comp.to_str]
    decide

/-- Witness for C10: the scenario run completes, and a raw-byte-named
directory is a non-match. -/
theorem c10_total_after_env_witness :
    ((runMain Platform.windows scenEnv fsScen true).1).isSome = true ∧
    isWebview2Dir ([] ++ [Comp.raw [255]]) = false :=
  ⟨c10_total_after_env.1 scenEnv fsScen true scenOut [Comp.utf8 "proj"]
     "debug" rfl rfl rfl,
   c10_total_after_env.2 [] [255]⟩
